import Mathlib

/-!
Verification of the tech-writers-toolkit multi-agent review core.

This file is a shallow embedding, in Lean 4, of the parts of the repository
that the verified properties talk about:

* the `AgentFinding` / `ReviewContext` / `ReviewResult` data model
  (`src/storage/models.py`, `src/agents/base_agent.py`,
  `src/ai/agent_manager.py`);
* the agent execution wrapper `BaseReviewAgent.execute_review`
  (`src/agents/base_agent.py`);
* the orchestrator `AgentManager.start_review` and
  `AgentManager._create_review_summary` (`src/ai/agent_manager.py`);
* the free-text findings parser `TechnicalAgent._parse_ai_response` /
  `_parse_single_finding` (`src/agents/technical_agent.py`);
* the measurement validators of `FormattingAgent`
  (`_validate_conversions`, `_decimal_to_fraction`, `_fraction_to_decimal`
  in `src/agents/formatting_agent.py`);
* the provider-fallback logic `LLMManager.generate_response`
  (`src/ai/llm_provider.py`).

Modelling conventions: Python floats are modelled as `Rat` (all numeric
literals involved are decimal fractions, exactly representable); code that
may raise is modelled with `Except String` (the error payload is the
message only, never inspected); functions that may return `None` return
`Option`; wall-clock timing and logging are side effects with no bearing
on any verified property and are dropped.
-/

namespace TWT

/-- `AgentFinding` from `src/storage/models.py`: one structured issue record
produced by an agent.  `created_at` is a wall-clock timestamp, never
inspected by the verified code, and is dropped. -/
structure AgentFinding where
  id : Option Int := none
  session_id : Int := 0
  agent_name : String := ""
  severity : String := ""
  category : String := ""
  description : String := ""
  location : String := ""
  suggestion : Option String := none
  confidence : Rat := 0
  deriving Repr, DecidableEq

/-- `ReviewContext` from `src/agents/base_agent.py`.  `document_info` is an
opaque metadata map never read by the verified code and is modelled as a
list of string pairs. -/
structure ReviewContext where
  document_text : String
  document_info : List (String × String) := []
  session_id : Int
  deriving Repr, DecidableEq

/-- A review agent: the per-agent constants fixed at construction plus the
`review` capability.  `review` may raise any error (`Except.error`),
matching the contract of `BaseReviewAgent.review`. -/
structure ReviewAgent where
  role : String
  confidence_threshold : Rat
  review : ReviewContext → Except String (List AgentFinding)

/-- `BaseReviewAgent.execute_review` from `src/agents/base_agent.py`:
calls `review(context)`; on success filters the returned findings to those
with `confidence >= confidence_threshold`; on any exception returns the
empty list.  Timing and logging are dropped. -/
def ReviewAgent.execute_review (agent : ReviewAgent) (context : ReviewContext) :
    List AgentFinding :=
  match agent.review context with
  | Except.ok findings =>
      findings.filter (fun f => agent.confidence_threshold ≤ f.confidence)
  | Except.error _ => []

/-- `ReviewResult` from `src/ai/agent_manager.py`.
`total_processing_time` is wall-clock time and is dropped. -/
structure ReviewResult where
  session_id : Int
  findings : List AgentFinding
  agent_results : List (String × List AgentFinding)
  status : String
  summary : Option String := none
  deriving Repr, DecidableEq

/-- Registry lookup `self.agents[agent_name]` / `agent_name not in self.agents`
of `AgentManager`; the registry dict is modelled as an association list. -/
def lookupAgent (agents : List (String × ReviewAgent)) (name : String) :
    Option ReviewAgent :=
  (agents.find? (fun p => p.1 = name)).map Prod.snd

/-- The finding-persistence loop inside `AgentManager.start_review`:
`for finding in agent_findings: finding_id = self.db_manager.add_agent_finding(finding); finding.id = finding_id`.
The storage collaborator `add` may raise; in-place mutation of `finding.id`
is modelled by returning the updated list. -/
def storeFindings (add : AgentFinding → Except String Int) :
    List AgentFinding → Except String (List AgentFinding)
  | [] => Except.ok []
  | f :: fs => do
      let fid ← add f
      let rest ← storeFindings add fs
      Except.ok ({ f with id := some fid } :: rest)

/-- The agent loop of `AgentManager.start_review` (lines 96-128): for each
requested name in order, skip it with a warning if unregistered; otherwise
run `execute_review`, persist the findings, and on success record the list
and bump `successful_agents`, while any exception raised in the loop body
records an empty list for that agent.  Returns
`(all_findings, agent_results, successful_agents)`. -/
def runAgents (agents : List (String × ReviewAgent))
    (add : AgentFinding → Except String Int) (context : ReviewContext) :
    List String → List AgentFinding × List (String × List AgentFinding) × Nat
  | [] => ([], [], 0)
  | name :: rest =>
      let out := runAgents agents add context rest
      match lookupAgent agents name with
      | none => out
      | some agent =>
          match storeFindings add (agent.execute_review context) with
          | Except.ok stored =>
              (stored ++ out.1, (name, stored) :: out.2.1, out.2.2 + 1)
          | Except.error _ => (out.1, (name, []) :: out.2.1, out.2.2)

/-- Count of findings with the given severity; implements the
`severity_counts` tally of `_create_review_summary`. -/
def countSeverity (findings : List AgentFinding) (sev : String) : Nat :=
  (findings.filter (fun f => f.severity = sev)).length

/-- `AgentManager._create_review_summary` from `src/ai/agent_manager.py`
(lines 163-211), translated clause by clause: the empty-findings early
return, the severity tally, the natural-language clauses, the per-agent
breakdown, and the partial note / failed override. -/
def create_review_summary (findings : List AgentFinding)
    (agent_results : List (String × List AgentFinding)) (status : String) :
    String :=
  if findings.isEmpty then
    "No issues found in the document. The content appears to be technically sound."
  else
    let errors := countSeverity findings "error"
    let warnings := countSeverity findings "warning"
    let infos := countSeverity findings "info"
    let summary_parts :=
      (if errors > 0 then
        [toString errors ++ " critical issue(s) that must be fixed"] else []) ++
      (if warnings > 0 then
        [toString warnings ++ " warning(s) that should be addressed"] else []) ++
      (if infos > 0 then
        [toString infos ++ " suggestion(s) for improvement"] else [])
    let summary :=
      if ¬ summary_parts.isEmpty then
        "Review found: " ++ String.intercalate ", " summary_parts ++ "."
      else
        "Review completed with mixed results."
    let agent_info := agent_results.filterMap (fun p =>
      if ¬ p.2.isEmpty then
        some (p.1 ++ ": " ++ toString p.2.length ++ " findings")
      else none)
    let summary :=
      if ¬ agent_info.isEmpty then
        summary ++ " Agent breakdown: " ++ String.intercalate ", " agent_info ++ "."
      else summary
    if status = "partial" then
      summary ++ " Note: Some agents failed to complete their review."
    else if status = "failed" then
      "Review failed - unable to complete analysis."
    else summary

/-- `AgentManager.start_review` from `src/ai/agent_manager.py` (lines
47-161).  The `ProcessedContent` argument is passed as its relevant parts
(`text`, `document_info`, `session_id`); the agent registry and the storage
collaborator `add_agent_finding` are explicit parameters.  The Python
truthiness check `if not session_id` is, for an `int` session id, exactly
`session_id == 0`. -/
def start_review (agents : List (String × ReviewAgent))
    (add : AgentFinding → Except String Int)
    (text : String) (document_info : List (String × String))
    (session_id : Int) (agents_to_use : Option (List String)) :
    Except String ReviewResult :=
  if session_id = 0 then
    Except.error "ProcessedContent must have a session_id"
  else
    let names := agents_to_use.getD (agents.map Prod.fst)
    let context : ReviewContext := ⟨text, document_info, session_id⟩
    let out := runAgents agents add context names
    let successful := out.2.2
    let status :=
      if successful = 0 then "failed"
      else if successful < names.length then "partial"
      else "completed"
    Except.ok
      { session_id := session_id
        findings := out.1
        agent_results := out.2.1
        status := status
        summary := some (create_review_summary out.1 out.2.1 status) }

/-- Specification-side predicate: the requested name is registered and its
orchestration-loop body (execute, then persist every finding) finishes
without raising.  Used to state the status semantics of `start_review`. -/
def loopSucceeds (agents : List (String × ReviewAgent))
    (add : AgentFinding → Except String Int) (context : ReviewContext)
    (name : String) : Bool :=
  match lookupAgent agents name with
  | none => false
  | some agent =>
      match storeFindings add (agent.execute_review context) with
      | Except.ok _ => true
      | Except.error _ => false

/-- Python `\s` / `str.strip` whitespace (ASCII): space, tab, newline,
carriage return, vertical tab, form feed. -/
def isPySpace (c : Char) : Bool :=
  c = ' ' ∨ c = '\t' ∨ c = '\n' ∨ c = '\r' ∨ c = '\x0b' ∨ c = '\x0c'

/-- Python `str.strip()` with no argument: drop leading and trailing
whitespace. -/
def pyStrip (s : String) : String :=
  String.mk (((s.toList.dropWhile isPySpace).reverse.dropWhile isPySpace).reverse)

/-- Python `str.lower()` (the inputs considered are ASCII). -/
def pyLower (s : String) : String := String.mk (s.toList.map Char.toLower)

/-- Python `str.startswith(pre)`. -/
def pyStartsWith (s pre : String) : Bool := pre.toList.isPrefixOf s.toList

/-- Exact rational addition written through `Rat.divInt`; the built-in
`Rat.add` does not reduce in the kernel, which concrete evaluations need.
`qAdd_eq` below shows it is ordinary addition. -/
def qAdd (a b : Rat) : Rat :=
  Rat.divInt (a.num * (b.den : Int) + b.num * (a.den : Int))
    ((a.den : Int) * (b.den : Int))

/-- Exact rational subtraction through `Rat.divInt` (see `qAdd`). -/
def qSub (a b : Rat) : Rat :=
  Rat.divInt (a.num * (b.den : Int) - b.num * (a.den : Int))
    ((a.den : Int) * (b.den : Int))

/-- Exact rational multiplication through `Rat.divInt` (see `qAdd`). -/
def qMul (a b : Rat) : Rat :=
  Rat.divInt (a.num * b.num) ((a.den : Int) * (b.den : Int))

/-- Exact rational division through `Rat.divInt` (see `qAdd`); division by
zero yields 0, exactly as `/` does on `Rat`. -/
def qDiv (a b : Rat) : Rat :=
  Rat.divInt (a.num * (b.den : Int)) ((a.den : Int) * b.num)

/-- Python `abs(float)`. -/
def pyAbs (x : Rat) : Rat := if x < 0 then Rat.neg x else x

/-- Python `str.split(sep)` for a single-character separator: split at every
occurrence, keeping empty segments. -/
def splitChar (sep : Char) : List Char → List (List Char)
  | [] => [[]]
  | c :: rest =>
      let r := splitChar sep rest
      if c = sep then [] :: r
      else (c :: r.headD []) :: r.tail

/-- The first occurrence of a (non-empty) separator substring: the text
before it and the text after it, or `none` when it does not occur — the
building block of Python `sep in s` and `s.split(sep)`. -/
def splitMarker (sep : List Char) : List Char → Option (List Char × List Char)
  | [] => none
  | c :: rest =>
      if sep.isPrefixOf (c :: rest) then some ([], (c :: rest).drop sep.length)
      else (splitMarker sep rest).map (fun p => (c :: p.1, p.2))

/-- The regex class `\w` on ASCII input: letters, digits, underscore. -/
def isWordChar (c : Char) : Bool := c.isAlphanum ∨ c = '_'

/-- Fold the digits of a non-empty digit string into a natural number. -/
def digitsToNat (ds : List Char) : Nat :=
  ds.foldl (fun n c => 10 * n + (c.toNat - '0'.toNat)) 0

/-- Python `int(str)`: strip whitespace, optional sign, digits; raises
`ValueError` (here: `none`) on anything else. -/
def pyParseInt (s : String) : Option Int :=
  match (pyStrip s).toList with
  | '-' :: ds =>
      if ds ≠ [] ∧ ds.all Char.isDigit then some (-(digitsToNat ds : Int)) else none
  | '+' :: ds =>
      if ds ≠ [] ∧ ds.all Char.isDigit then some (digitsToNat ds) else none
  | ds =>
      if ds ≠ [] ∧ ds.all Char.isDigit then some (digitsToNat ds) else none

/-- The tail `\s*-\s*(.+)` shared by both severity-header regexes of
`TechnicalAgent._parse_single_finding`: skip whitespace, require a dash,
skip whitespace, capture the non-empty remainder.  Greedy `\s*` backtracks
one step when the remainder would otherwise be empty, leaving the final
whitespace character as the capture. -/
def matchDashRest (cs : List Char) : Option (List Char) :=
  match cs.dropWhile isPySpace with
  | '-' :: rest =>
      let ws := rest.takeWhile isPySpace
      let body := rest.dropWhile isPySpace
      if body ≠ [] then some body
      else
        match ws.reverse with
        | c :: _ => some [c]
        | [] => none
  | _ => none

/-- The first header regex `\[(\w+)\]\s*-\s*(.+)` of
`_parse_single_finding`, matched at the start of the line
(`re.match`): returns the severity word and the remainder captures. -/
def matchBracketHeader (line : String) : Option (String × String) :=
  match line.toList with
  | '[' :: rest =>
      let w := rest.takeWhile isWordChar
      if w = [] then none
      else
        match rest.drop w.length with
        | ']' :: rest2 =>
            (matchDashRest rest2).map (fun body => (String.mk w, String.mk body))
        | _ => none
  | _ => none

/-- The alternative header regex `(\w+)\s*-\s*(.+)` of
`_parse_single_finding`. -/
def matchPlainHeader (line : String) : Option (String × String) :=
  let cs := line.toList
  let w := cs.takeWhile isWordChar
  if w = [] then none
  else (matchDashRest (cs.drop w.length)).map
    (fun body => (String.mk w, String.mk body))

/-- Python `rest.split(':', 1)` guarded by `':' in rest`: the text before
the first colon and the text after it. -/
def splitFirstColon (s : String) : Option (String × String) :=
  let cs := s.toList
  if cs.contains ':' then
    some (String.mk (cs.takeWhile (fun c => c ≠ ':')),
          String.mk ((cs.dropWhile (fun c => c ≠ ':')).drop 1))
  else none

/-- The suggestion scan of `_parse_single_finding`: the first of the given
lines whose stripped, lower-cased form starts with `suggestion:` yields
the text after the first colon of the original line, stripped. -/
def findSuggestion : List String → Option String
  | [] => none
  | line :: rest =>
      if pyStartsWith (pyLower (pyStrip line)) "suggestion:" then
        some (pyStrip (String.mk ((line.toList.dropWhile (fun c => c ≠ ':')).drop 1)))
      else findSuggestion rest

/-- `TechnicalAgent._parse_single_finding` from
`src/agents/technical_agent.py` (lines 136-195): reject short input, parse
the first line against the two header grammars, split location from
description at the first colon, scan the later lines for a suggestion,
normalize unknown severities to `warning`, and build the finding with the
agent's role, category `"technical"` and fixed confidence 0.8. -/
def parse_single_finding (role : String) (raw_finding : String)
    (session_id : Int) : Option AgentFinding :=
  if raw_finding = "" ∨ raw_finding.length < 10 then none
  else
    let lines := (splitChar '\n' raw_finding.toList).map String.mk
    let main_line := lines.headD ""
    let m :=
      match matchBracketHeader main_line with
      | some r => some r
      | none => matchPlainHeader main_line
    let sld :=
      match m with
      | none => ("warning", "Document", raw_finding)
      | some (sev, rest) =>
          match splitFirstColon rest with
          | some (loc, desc) => (pyLower sev, pyStrip loc, pyStrip desc)
          | none => (pyLower sev, "Document", pyStrip rest)
    let severity :=
      if sld.1 = "error" ∨ sld.1 = "warning" ∨ sld.1 = "info" then sld.1
      else "warning"
    some { session_id := session_id
           agent_name := role
           severity := severity
           category := "technical"
           description := sld.2.2
           location := sld.2.1
           suggestion := findSuggestion (lines.drop 1)
           confidence := mkRat 8 10 }

/-- A maximal run of equal characters is a block separator for
`re.split(r'---+|\n\n\n+', ...)` when it consists of three or more dashes
or three or more newlines. -/
def isBlockSep (run : List Char) : Bool :=
  (run.head? = some '-' ∨ run.head? = some '\n') ∧ run.length ≥ 3

/-- Join maximal equal-character runs back into block segments, cutting at
separator runs (which the regex consumes greedily). -/
def joinBlockRuns : List (List Char) → List Char → List String
  | [], acc => [String.mk acc]
  | run :: rest, acc =>
      if isBlockSep run then String.mk acc :: joinBlockRuns rest []
      else joinBlockRuns rest (acc ++ run)

/-- The block splitter `re.split(r'---+|\n\n\n+', findings_section)` of
`_parse_ai_response`: a run of three or more dashes, or of three or more
newlines, separates blocks and is consumed greedily.  Implemented by
grouping the text into maximal runs of equal characters and cutting at
separator runs. -/
def splitFindingBlocks (cs : List Char) : List String :=
  joinBlockRuns (cs.splitBy (fun a b => a = b)) []

/-- `TechnicalAgent._parse_ai_response` from `src/agents/technical_agent.py`
(lines 112-134): take `response.split("FINDINGS:")[1].strip()` — the text
between the first and second occurrence of the marker (to the end when it
occurs once) — or the whole response when the marker is absent; split it
into blocks, and parse each stripped block, keeping the successes. -/
def parse_ai_response (role response : String) (session_id : Int) :
    List AgentFinding :=
  let findings_section :=
    match splitMarker "FINDINGS:".toList response.toList with
    | some pa =>
        match splitMarker "FINDINGS:".toList pa.2 with
        | some pb => pyStrip (String.mk pb.1)
        | none => pyStrip (String.mk pa.2)
    | none => response
  let raw_findings := splitFindingBlocks findings_section.toList
  raw_findings.filterMap
    (fun raw => parse_single_finding role (pyStrip raw) session_id)

/-- The static sixteenth-fractions table of
`FormattingAgent._decimal_to_fraction`, in the source's insertion order. -/
def fractionsTable : List (Rat × String) :=
  [(mkRat 1 16, "1/16"), (mkRat 1 8, "1/8"), (mkRat 3 16, "3/16"),
   (mkRat 1 4, "1/4"), (mkRat 5 16, "5/16"), (mkRat 3 8, "3/8"),
   (mkRat 7 16, "7/16"), (mkRat 1 2, "1/2"), (mkRat 9 16, "9/16"),
   (mkRat 5 8, "5/8"), (mkRat 11 16, "11/16"), (mkRat 3 4, "3/4"),
   (mkRat 13 16, "13/16"), (mkRat 7 8, "7/8"), (mkRat 15 16, "15/16")]

/-- Python `int(float)`: truncation toward zero. -/
def pyInt (x : Rat) : Int := if 0 ≤ x then x.floor else -((Rat.neg x).floor)

/-- `FormattingAgent._decimal_to_fraction` from
`src/agents/formatting_agent.py` (lines 309-337): split whole and
fractional part, pick the table entry of minimum absolute difference
(first wins on ties, matching strict `<` against the running minimum), and
format as `"W-N/D"`, `"N/D"` or the bare whole part depending on the
whole part and the 0.03 rounding threshold. -/
def decimal_to_fraction (decimal_value : Rat) : String :=
  let whole_part := pyInt decimal_value
  let fractional_part := qSub decimal_value (whole_part : Rat)
  let closest := fractionsTable.foldl
    (fun best entry =>
      match best with
      | none => some (pyAbs (qSub fractional_part entry.1), entry.2)
      | some md =>
          if pyAbs (qSub fractional_part entry.1) < md.1 then
            some (pyAbs (qSub fractional_part entry.1), entry.2)
          else best)
    none
  match closest with
  | some cf =>
      if whole_part > 0 ∧ fractional_part > mkRat 3 100 then
        toString whole_part ++ "-" ++ cf.2
      else if fractional_part > mkRat 3 100 then cf.2
      else toString whole_part
  | none => toString whole_part

/-- The `int(numerator) / int(denominator)` step of
`_fraction_to_decimal`: `none` models `ValueError` from `int()` and
`ZeroDivisionError`; a `frac_part` without a slash contributes 0. -/
def parseFracPart (frac_part : String) : Option Rat :=
  if frac_part.toList.contains '/' then
    match (splitChar '/' frac_part.toList).map String.mk with
    | [n, d] =>
        match pyParseInt n, pyParseInt d with
        | some nn, some dd =>
            if dd = 0 then none else some (Rat.divInt nn dd)
        | _, _ => none
    | _ => none
  else some 0

/-- `FormattingAgent._fraction_to_decimal` from
`src/agents/formatting_agent.py` (lines 339-358): parse `"W-N/D"` or
`"N/D"` and return `whole + numerator/denominator`; `none` models the
exceptions `int()` and the tuple unpacking of `split('/')` can raise. -/
def fraction_to_decimal (fraction_text : String) : Option Rat :=
  if fraction_text.toList.contains '-' then
    let parts := (splitChar '-' fraction_text.toList).map String.mk
    match pyParseInt (pyStrip (parts.getD 0 "")) with
    | none => none
    | some whole =>
        (parseFracPart (pyStrip (parts.getD 1 ""))).map
          (fun v => qAdd (whole : Rat) v)
  else
    (parseFracPart (pyStrip fraction_text)).map (fun v => qAdd 0 v)

/-- Round-trip check used to state the sixteenth-fraction property: the
composite of the two conversion routines lands within 1/32 of the input. -/
def sixteenthRoundTripOk (x : Rat) : Bool :=
  match fraction_to_decimal (decimal_to_fraction x) with
  | some y => pyAbs (qSub y x) ≤ mkRat 1 32
  | none => false

/-- A regular expression of the restricted shape used by the conversion
rules of `FormattingAgent._setup_conversion_rules`: literals (matched
case-insensitively, for `re.IGNORECASE`), single-character classes, and
quantifiers whose body is a single-character class (`\d+`, `\s*`, the lazy
`.*?`).  For these, backtracking order is a simple enumeration of run
lengths. -/
inductive RE where
  | eps : RE
  | ch : Char → RE
  | cls : (Char → Bool) → RE
  | seq : RE → RE → RE
  | alt : RE → RE → RE
  | opt : RE → RE
  | starG : (Char → Bool) → RE
  | plusG : (Char → Bool) → RE
  | starL : (Char → Bool) → RE
  | group : Nat → RE → RE

/-- All ways a regex can match a prefix of the input, as
`(consumed length, captures)`, in backtracking priority order: the first
element is the match Python's `re` engine reports.  Greedy quantifiers
enumerate long runs first, lazy ones short runs first, alternation tries
its left arm first. -/
def reMatches : RE → List Char → List (Nat × List (Nat × List Char))
  | RE.eps, _ => [(0, [])]
  | RE.ch _, [] => []
  | RE.ch c, x :: _ => if x.toLower = c.toLower then [(1, [])] else []
  | RE.cls _, [] => []
  | RE.cls p, x :: _ => if p x then [(1, [])] else []
  | RE.seq a b, s =>
      (reMatches a s).flatMap (fun na =>
        (reMatches b (s.drop na.1)).map (fun nb => (na.1 + nb.1, na.2 ++ nb.2)))
  | RE.alt a b, s => reMatches a s ++ reMatches b s
  | RE.opt a, s => reMatches a s ++ [(0, [])]
  | RE.starG p, s =>
      ((List.range ((s.takeWhile p).length + 1)).reverse).map (fun k => (k, []))
  | RE.plusG p, s =>
      ((List.range ((s.takeWhile p).length)).reverse).map (fun k => (k + 1, []))
  | RE.starL p, s =>
      (List.range ((s.takeWhile p).length + 1)).map (fun k => (k, []))
  | RE.group n a, s =>
      (reMatches a s).map (fun m => (m.1, m.2 ++ [(n, s.take m.1)]))

/-- `re.finditer` for the restricted regexes: scan left to right, at each
position take the engine's first match, yield `(matched text, captures)`
and continue after it (the embedded patterns never match the empty
string, so a zero-width match is simply skipped).  The fuel is the input
length; every step consumes at least one character. -/
def reFindIterGo (r : RE) : Nat → List Char → List (List Char × List (Nat × List Char))
  | 0, _ => []
  | _ + 1, [] => []
  | fuel + 1, c :: rest =>
      match (reMatches r (c :: rest)).head? with
      | some m =>
          if m.1 = 0 then reFindIterGo r fuel rest
          else ((c :: rest).take m.1, m.2) ::
            reFindIterGo r fuel ((c :: rest).drop m.1)
      | none => reFindIterGo r fuel rest

/-- `re.finditer(pattern, text, re.IGNORECASE)` over the restricted
regexes. -/
def reFindIter (r : RE) (s : List Char) :
    List (List Char × List (Nat × List Char)) :=
  reFindIterGo r s.length s

/-- A literal string as a regex (case-insensitive literals). -/
def reStr (s : String) : RE :=
  s.toList.foldr (fun c acc => RE.seq (RE.ch c) acc) RE.eps

/-- Sequence a list of regexes. -/
def reSeqAll (l : List RE) : RE := l.foldr RE.seq RE.eps

/-- The number group `(\d+(?:\.\d+)?)`, optionally preceded by `-?`,
capturing as group `n`. -/
def reNumGroup (n : Nat) (signed : Bool) : RE :=
  RE.group n (reSeqAll
    ((if signed then [RE.opt (RE.ch '-')] else []) ++
     [RE.plusG Char.isDigit,
      RE.opt (RE.seq (RE.ch '.') (RE.plusG Char.isDigit))]))

/-- `ConversionRule` from `src/agents/formatting_agent.py` (lines 16-23). -/
structure ConversionRule where
  pattern : RE
  from_unit : String
  to_unit : String
  conversion_factor : Option Rat
  tolerance : Rat

/-- The temperature pattern
`(-?\d+(?:\.\d+)?)\s*°?F.*?(-?\d+(?:\.\d+)?)\s*°?C` of
`_setup_conversion_rules`. -/
def tempPattern : RE :=
  reSeqAll
    [reNumGroup 1 true, RE.starG isPySpace, RE.opt (RE.ch '°'), RE.ch 'F',
     RE.starL (fun c => c ≠ '\n'),
     reNumGroup 2 true, RE.starG isPySpace, RE.opt (RE.ch '°'), RE.ch 'C']

/-- The inch-to-millimeter pattern
`(\d+(?:\.\d+)?)\s*(?:inch|in|").*?(\d+(?:\.\d+)?)\s*(?:mm|millimeter)`
of `_setup_conversion_rules`. -/
def inchPattern : RE :=
  reSeqAll
    [reNumGroup 1 false, RE.starG isPySpace,
     RE.alt (reStr "inch") (RE.alt (reStr "in") (reStr "\"")),
     RE.starL (fun c => c ≠ '\n'),
     reNumGroup 2 false, RE.starG isPySpace,
     RE.alt (reStr "mm") (reStr "millimeter")]

/-- The foot-to-meter pattern
`(\d+(?:\.\d+)?)\s*(?:ft|foot|feet).*?(\d+(?:\.\d+)?)\s*(?:m|meter)`
of `_setup_conversion_rules`. -/
def ftPattern : RE :=
  reSeqAll
    [reNumGroup 1 false, RE.starG isPySpace,
     RE.alt (reStr "ft") (RE.alt (reStr "foot") (reStr "feet")),
     RE.starL (fun c => c ≠ '\n'),
     reNumGroup 2 false, RE.starG isPySpace,
     RE.alt (reStr "m") (reStr "meter")]

/-- The temperature rule of `_setup_conversion_rules`: custom validation,
tolerance 0.5. -/
def temperatureRule : ConversionRule := ⟨tempPattern, "F", "C", none, mkRat 1 2⟩

/-- The inch→mm rule of `_setup_conversion_rules`: factor 25.4, tolerance
0.5. -/
def inchRule : ConversionRule :=
  ⟨inchPattern, "inch", "mm", some (mkRat 254 10), mkRat 1 2⟩

/-- The foot→meter rule of `_setup_conversion_rules`: factor 0.3048,
tolerance 0.01. -/
def footRule : ConversionRule :=
  ⟨ftPattern, "ft", "m", some (mkRat 3048 10000), mkRat 1 100⟩

/-- `self.conversion_rules` of `_setup_conversion_rules` (lines 57-83). -/
def conversion_rules : List ConversionRule := [temperatureRule, inchRule, footRule]

/-- `match.group(n)`: the capture of group `n` (all groups of the embedded
patterns always participate in a match). -/
def capture (n : Nat) (caps : List (Nat × List Char)) : List Char :=
  ((caps.find? (fun p => p.1 = n)).map Prod.snd).getD []

/-- Python `float(s)` on the digit strings the number groups capture:
digits with an optional fraction part and an optional leading minus. -/
def parseUnsignedFloat (cs : List Char) : Option Rat :=
  let intPart := cs.takeWhile Char.isDigit
  if intPart = [] then none
  else
    match cs.drop intPart.length with
    | [] => some (mkRat (digitsToNat intPart) 1)
    | '.' :: fracDigits =>
        if fracDigits ≠ [] ∧ fracDigits.all Char.isDigit then
          some (mkRat
            (digitsToNat intPart * 10 ^ fracDigits.length + digitsToNat fracDigits)
            (10 ^ fracDigits.length))
        else none
    | _ => none

/-- Python `float(s)` with an optional sign (the shape `group(1)` and
`group(2)` of the conversion rules can take); `none` models `ValueError`. -/
def parseFloat (cs : List Char) : Option Rat :=
  match cs with
  | '-' :: rest => (parseUnsignedFloat rest).map Rat.neg
  | _ => parseUnsignedFloat cs

/-- Smallest exponent `e ≤ fuel` with `10^e` divisible by `d` (the
denominators involved all divide a power of ten). -/
def decExp (d : Nat) : Nat → Nat
  | 0 => 0
  | fuel + 1 => if 10 ^ (decExp d fuel) % d = 0 then decExp d fuel else fuel + 1

/-- Model of Python `f"{x}"` on a float holding a short decimal value: the
shortest decimal rendering, with at least one digit after the point
(`100.0`, `37.7`). -/
def fmtF (x : Rat) : String :=
  let sign := if x.num < 0 then "-" else ""
  let n := x.num.natAbs
  let d := x.den
  let e := decExp d 30
  let scaled := n * 10 ^ e / d
  let ip := scaled / 10 ^ e
  let fracPart := scaled % 10 ^ e
  let fracDigits :=
    (String.mk (List.replicate (e - (toString fracPart).length) '0') ++
      toString fracPart).toList
  let trimmed := (fracDigits.reverse.dropWhile (fun c => c = '0')).reverse
  let fracStr := if trimmed = [] then "0" else String.mk trimmed
  sign ++ toString ip ++ "." ++ fracStr

/-- Round half to even to an integer (the rounding Python's `format` uses,
applied here to the exact rational value). -/
def roundHalfEven (t : Rat) : Int :=
  let f := t.floor
  let r := qSub t (f : Rat)
  if r < mkRat 1 2 then f
  else if mkRat 1 2 < r then f + 1
  else if f % 2 = 0 then f else f + 1

/-- Model of Python `f"{x:.1f}"`: round half to even at one decimal place
and print with exactly one digit after the point. -/
def fmt1 (x : Rat) : String :=
  let n := roundHalfEven (qMul x 10)
  let sign := if n < 0 then "-" else ""
  let m := n.natAbs
  sign ++ toString (m / 10) ++ "." ++ toString (m % 10)

/-- The finding the temperature branch of
`FormattingAgent._validate_conversions` emits (lines 497-509): severity
`error`, category `conversion`, description and suggestion quoting the
parsed values and the corrected Celsius value rounded to one decimal,
location quoting the matched text, confidence 0.95. -/
def tempConversionFinding (role : String) (session_id : Int)
    (value1 value2 expected_c : Rat) (matched : List Char) : AgentFinding :=
  { session_id := session_id
    agent_name := role
    severity := "error"
    category := "conversion"
    description := "Incorrect temperature conversion: " ++ fmtF value1 ++
      "°F should be " ++ fmt1 expected_c ++ "°C, not " ++ fmtF value2 ++ "°C"
    location := "Conversion: " ++ String.mk matched
    suggestion := some ("Correct conversion: " ++ fmtF value1 ++ "°F = " ++
      fmt1 expected_c ++ "°C")
    confidence := mkRat 95 100 }

/-- The finding the linear branch of `_validate_conversions` emits (lines
511-523). -/
def linearConversionFinding (role : String) (session_id : Int)
    (value1 value2 expected_value : Rat) (from_unit to_unit : String)
    (matched : List Char) : AgentFinding :=
  { session_id := session_id
    agent_name := role
    severity := "error"
    category := "conversion"
    description := "Incorrect conversion: " ++ fmtF value1 ++ " " ++
      from_unit ++ " should be " ++ fmt1 expected_value ++ " " ++ to_unit ++
      ", not " ++ fmtF value2 ++ " " ++ to_unit
    location := "Conversion: " ++ String.mk matched
    suggestion := some ("Correct conversion: " ++ fmtF value1 ++ " " ++
      from_unit ++ " = " ++ fmt1 expected_value ++ " " ++ to_unit)
    confidence := mkRat 95 100 }

/-- The loop body of `FormattingAgent._validate_conversions` for one rule
(lines 489-526): for each regex match, parse both numeric groups (a parse
failure is the caught `ValueError`, producing nothing), run the custom
Fahrenheit→Celsius check or the linear factor check, and emit an error
finding when the deviation exceeds the rule's tolerance. -/
def validateRule (rule : ConversionRule) (role : String) (text : String)
    (session_id : Int) : List AgentFinding :=
  (reFindIter rule.pattern text.toList).filterMap (fun m =>
    match parseFloat (capture 1 m.2), parseFloat (capture 2 m.2) with
    | some value1, some value2 =>
        if rule.from_unit = "F" ∧ rule.to_unit = "C" then
          let expected_c := qDiv (qMul (qSub value1 32) 5) 9
          if rule.tolerance < pyAbs (qSub value2 expected_c) then
            some (tempConversionFinding role session_id value1 value2
              expected_c m.1)
          else none
        else
          match rule.conversion_factor with
          | some factor =>
              let expected_value := qMul value1 factor
              if rule.tolerance < pyAbs (qSub value2 expected_value) then
                some (linearConversionFinding role session_id value1 value2
                  expected_value rule.from_unit rule.to_unit m.1)
              else none
          | none => none
    | _, _ => none)

/-- `FormattingAgent._validate_conversions` (lines 485-528): run every
conversion rule over the text, in order, concatenating the findings. -/
def validate_conversions (role : String) (text : String) (session_id : Int) :
    List AgentFinding :=
  conversion_rules.flatMap (fun rule => validateRule rule role text session_id)

/-- A text-generation provider from `src/ai/llm_provider.py`: its
`generate_response(prompt, max_tokens, temperature)` returns text or
raises (network errors, HTTP status errors, timeouts). -/
def LLMProvider : Type :=
  String → Option Int → Rat → Except String String

/-- Provider-registry lookup (`provider_name in self.providers` /
`self.providers[provider_name]` of `LLMManager`); the dict is modelled as
an association list. -/
def lookupProvider (providers : List (String × LLMProvider)) (name : String) :
    Option LLMProvider :=
  (providers.find? (fun p => p.1 = name)).map Prod.snd

/-- Resolution `provider_name = provider or self.default_provider` in
`LLMManager.generate_response`: Python `or` falls through to the default
on `None` and on the falsy empty string. -/
def resolveProviderName (provider : Option String) (default_name : String) :
    String :=
  match provider with
  | some s => if s = "" then default_name else s
  | none => default_name

/-- The fallback half of `LLMManager.generate_response` (lines 231-245):
if the configured fallback name differs from the name that was already
tried and is registered, attempt it and return its text on success; in
every other case raise the aggregate `RuntimeError("All LLM providers
failed")`. -/
def tryFallbackProvider (providers : List (String × LLMProvider))
    (fallback_name provider_name prompt : String) (max_tokens : Option Int)
    (temperature : Rat) : Except String String :=
  if fallback_name ≠ provider_name then
    match lookupProvider providers fallback_name with
    | some p =>
        match p prompt max_tokens temperature with
        | Except.ok text => Except.ok text
        | Except.error _ => Except.error "All LLM providers failed"
    | none => Except.error "All LLM providers failed"
  else Except.error "All LLM providers failed"

/-- `LLMManager.generate_response` from `src/ai/llm_provider.py` (lines
196-245): resolve the target name, attempt it if registered, and on
failure (or if unregistered) fall through to the fallback attempt. -/
def generate_response (providers : List (String × LLMProvider))
    (default_name fallback_name prompt : String) (max_tokens : Option Int)
    (temperature : Rat) (provider : Option String) : Except String String :=
  let provider_name := resolveProviderName provider default_name
  match lookupProvider providers provider_name with
  | some p =>
      match p prompt max_tokens temperature with
      | Except.ok text => Except.ok text
      | Except.error _ =>
          tryFallbackProvider providers fallback_name provider_name prompt
            max_tokens temperature
  | none =>
      tryFallbackProvider providers fallback_name provider_name prompt
        max_tokens temperature

/-- Test fixture: a provider that always raises. -/
def failingProvider : LLMProvider := fun _ _ _ => Except.error "boom"

/-- Test fixture: a provider that always succeeds with a fixed text. -/
def fallbackTextProvider : LLMProvider := fun _ _ _ => Except.ok "fallback text"

/-- Test fixture: a second provider that always raises. -/
def failingProvider2 : LLMProvider := fun _ _ _ => Except.error "also down"

/-- Test fixture: an agent whose `review` succeeds with no findings. -/
def emptyOkAgent : ReviewAgent :=
  ⟨"Technical Accuracy Reviewer", mkRat 6 10, fun _ => Except.ok []⟩

/-- Test fixture: an agent whose `review` succeeds with one high-confidence
error finding. -/
def oneFindingAgent : ReviewAgent :=
  ⟨"Technical Accuracy Reviewer", mkRat 6 10, fun _ => Except.ok
    [{ session_id := 1, agent_name := "Technical Accuracy Reviewer",
       severity := "error", category := "technical",
       description := "Reversed polarity", location := "Page 3",
       confidence := mkRat 9 10 }]⟩

/-- Test fixture: a storage collaborator whose `add_agent_finding` always
succeeds, returning id 1. -/
def addOk : AgentFinding → Except String Int := fun _ => Except.ok 1

/-- Test fixture: a storage collaborator whose `add_agent_finding` always
raises. -/
def addFail : AgentFinding → Except String Int := fun _ => Except.error "db down"

end TWT

/-- The `successful_agents` counter computed by the agent loop equals the
number of requested names that are registered and whose loop body runs
without raising. -/
theorem runAgents_successful_eq_countP
    (agents : List (String × TWT.ReviewAgent))
    (add : TWT.AgentFinding → Except String Int) (context : TWT.ReviewContext)
    (names : List String) :
    (TWT.runAgents agents add context names).2.2
      = names.countP (TWT.loopSucceeds agents add context) := by
  induction names with
  | nil => simp [TWT.runAgents]
  | cons name rest ih =>
      rw [TWT.runAgents, List.countP_cons]
      cases h : TWT.lookupAgent agents name with
      | none =>
          have hp : TWT.loopSucceeds agents add context name = false := by
            simp [TWT.loopSucceeds, h]
          simp [hp, ih]
      | some agent =>
          cases hout : TWT.storeFindings add (agent.execute_review context) with
          | ok stored =>
              have hp : TWT.loopSucceeds agents add context name = true := by
                simp [TWT.loopSucceeds, h, hout]
              simp [hout, hp, ih]
          | error e =>
              have hp : TWT.loopSucceeds agents add context name = false := by
                simp [TWT.loopSucceeds, h, hout]
              simp [hout, hp, ih]

/-- If the agent loop counted zero successful agents, the merged findings
list it returns is empty (findings are only collected in the success
branch). -/
theorem runAgents_findings_nil_of_successful_zero
    (agents : List (String × TWT.ReviewAgent))
    (add : TWT.AgentFinding → Except String Int) (context : TWT.ReviewContext)
    (names : List String)
    (h : (TWT.runAgents agents add context names).2.2 = 0) :
    (TWT.runAgents agents add context names).1 = [] := by
  induction names with
  | nil => simp [TWT.runAgents]
  | cons name rest ih =>
      rw [TWT.runAgents] at h ⊢
      cases hl : TWT.lookupAgent agents name with
      | none =>
          simp only [hl] at h ⊢
          exact ih h
      | some agent =>
          simp only [hl] at h ⊢
          cases hout : TWT.storeFindings add (agent.execute_review context) with
          | ok stored => simp [hout] at h
          | error e =>
              simp only [hout] at h ⊢
              exact ih h

/-- C2: if an agent's `review(context)` raises any exception,
`execute_review(context)` catches it and returns the empty list; the
return type of the embedding (`List AgentFinding`, not `Except`) shows
that no exception ever propagates to the caller. -/
theorem execute_review_swallows_review_errors
    (agent : TWT.ReviewAgent) (context : TWT.ReviewContext) (e : String)
    (h : agent.review context = Except.error e) :
    agent.execute_review context = [] := by
  unfold TWT.ReviewAgent.execute_review
  rw [h]

/-- Witness for C2 at a concrete agent (whose `review` always raises) and a
concrete context. -/
theorem execute_review_swallows_review_errors_witness :
    TWT.ReviewAgent.execute_review
      ⟨"Technical Accuracy Reviewer", 6/10, fun _ => Except.error "boom"⟩
      ⟨"doc", [], 1⟩ = [] :=
  execute_review_swallows_review_errors _ _ "boom" rfl

/-- C3: every finding returned by `execute_review` has
`confidence ≥ confidence_threshold`, and any finding produced by the
underlying `review` whose confidence is below the threshold is absent from
the returned list. -/
theorem execute_review_confidence_filter
    (agent : TWT.ReviewAgent) (context : TWT.ReviewContext) :
    (∀ f ∈ agent.execute_review context,
        agent.confidence_threshold ≤ f.confidence) ∧
    (∀ fs f, agent.review context = Except.ok fs → f ∈ fs →
        f.confidence < agent.confidence_threshold →
        f ∉ agent.execute_review context) := by
  constructor
  · intro f hf
    unfold TWT.ReviewAgent.execute_review at hf
    cases hrev : agent.review context with
    | ok fs =>
        rw [hrev] at hf
        exact of_decide_eq_true (List.mem_filter.mp hf).2
    | error e =>
        rw [hrev] at hf
        simp at hf
  · intro fs f hrev hmem hlt hcontra
    unfold TWT.ReviewAgent.execute_review at hcontra
    rw [hrev] at hcontra
    exact absurd (of_decide_eq_true (List.mem_filter.mp hcontra).2) (not_le.mpr hlt)

/-- Witness for C3 at a concrete agent whose `review` returns one finding
above and one below the threshold: the low-confidence finding is dropped,
the high-confidence one kept. -/
theorem execute_review_confidence_filter_witness :
    (∀ f ∈ TWT.ReviewAgent.execute_review
        ⟨"Technical Accuracy Reviewer", 6/10, fun _ => Except.ok
          [{ session_id := 1, agent_name := "Technical Accuracy Reviewer",
             severity := "warning", category := "technical",
             description := "low", location := "Document",
             confidence := 1/2 },
           { session_id := 1, agent_name := "Technical Accuracy Reviewer",
             severity := "error", category := "technical",
             description := "high", location := "Document",
             confidence := 9/10 }]⟩
        ⟨"doc", [], 1⟩,
      (6 : Rat)/10 ≤ f.confidence) ∧
    ({ session_id := 1, agent_name := "Technical Accuracy Reviewer",
       severity := "warning", category := "technical",
       description := "low", location := "Document",
       confidence := 1/2 : TWT.AgentFinding} ∉
      TWT.ReviewAgent.execute_review
        ⟨"Technical Accuracy Reviewer", 6/10, fun _ => Except.ok
          [{ session_id := 1, agent_name := "Technical Accuracy Reviewer",
             severity := "warning", category := "technical",
             description := "low", location := "Document",
             confidence := 1/2 },
           { session_id := 1, agent_name := "Technical Accuracy Reviewer",
             severity := "error", category := "technical",
             description := "high", location := "Document",
             confidence := 9/10 }]⟩
        ⟨"doc", [], 1⟩) := by
  refine ⟨(execute_review_confidence_filter _ _).1, ?_⟩
  exact (execute_review_confidence_filter _ _).2 _ _ rfl (List.mem_cons_self _ _) (by norm_num)

/-- C10: `start_review` treats `session_id == 0` exactly like a missing
session id (`if not session_id` on an `int` is true exactly at 0): it
raises the precondition-violation `ValueError` immediately.  The result is
the same for every agent registry, storage collaborator and request list,
so no agent is run and storage is never touched. -/
theorem start_review_rejects_zero_session
    (agents : List (String × TWT.ReviewAgent))
    (add : TWT.AgentFinding → Except String Int)
    (text : String) (document_info : List (String × String))
    (agents_to_use : Option (List String)) :
    TWT.start_review agents add text document_info 0 agents_to_use
      = Except.error "ProcessedContent must have a session_id" := by
  simp [TWT.start_review]

/-- C1 counterexample: requesting one registered agent that succeeds plus
one unregistered name yields status `"partial"`, not `"completed"` as the
claim states — the unregistered name is skipped by the loop but still
counts in the `len(agents_to_use)` denominator of the status decision. -/
theorem start_review_unregistered_name_gives_partial :
    (TWT.start_review [("technical", TWT.emptyOkAgent)] TWT.addOk "doc" [] 1
        (some ["technical", "ghost"])).map TWT.ReviewResult.status
      = Except.ok "partial" ∧ ("partial" : String) ≠ "completed" :=
  ⟨rfl, by decide⟩

/-- C1 (amended): `ReviewResult.status` is decided by comparing the number
`S` of requested names that are registered and whose orchestration-loop
body finishes without raising against the total length of the requested
list, unregistered names included: `"failed"` if `S = 0`, `"partial"` if
`0 < S < total`, `"completed"` only if `S` equals the total — so an
unregistered requested name rules out `"completed"`. -/
theorem start_review_status_formula
    (agents : List (String × TWT.ReviewAgent))
    (add : TWT.AgentFinding → Except String Int)
    (text : String) (document_info : List (String × String))
    (session_id : Int) (hsid : session_id ≠ 0) (names : List String) :
    (TWT.start_review agents add text document_info session_id
        (some names)).map TWT.ReviewResult.status
      = Except.ok
          (if names.countP
                (TWT.loopSucceeds agents add ⟨text, document_info, session_id⟩)
              = 0 then "failed"
           else if names.countP
                (TWT.loopSucceeds agents add ⟨text, document_info, session_id⟩)
              < names.length then "partial"
           else "completed") := by
  unfold TWT.start_review
  rw [if_neg hsid]
  simp only [Option.getD_some, runAgents_successful_eq_countP]
  rfl

/-- Witness for C1 (amended) at the concrete input of the counterexample:
one registered succeeding agent plus one unregistered name. -/
theorem start_review_status_formula_witness :
    (TWT.start_review [("technical", TWT.emptyOkAgent)] TWT.addOk "doc" [] 1
        (some ["technical", "ghost"])).map TWT.ReviewResult.status
      = Except.ok
          (if ["technical", "ghost"].countP
                (TWT.loopSucceeds [("technical", TWT.emptyOkAgent)] TWT.addOk
                  ⟨"doc", [], 1⟩)
              = 0 then "failed"
           else if ["technical", "ghost"].countP
                (TWT.loopSucceeds [("technical", TWT.emptyOkAgent)] TWT.addOk
                  ⟨"doc", [], 1⟩)
              < (["technical", "ghost"] : List String).length then "partial"
           else "completed") :=
  start_review_status_formula _ _ _ _ 1 (by decide) _

/-- C9 counterexample: a review in which the only registered requested
agent's orchestration-loop call raises (the storage collaborator fails)
returns `status = "failed"` with an empty findings list, and its summary is
exactly the fixed "no issues found" message — not an explanatory failure
message as the claim states.  The `"Review failed - unable to complete
analysis."` override of `_create_review_summary` is unreachable here
because the empty-findings early return fires first. -/
theorem start_review_failed_uses_no_issues_message :
    (TWT.start_review [("technical", TWT.oneFindingAgent)] TWT.addFail "doc" [] 1
        (some ["technical"])).map
        (fun r => (r.status, r.findings, r.summary))
      = Except.ok ("failed", [],
          some "No issues found in the document. The content appears to be technically sound.") := by
  rfl

/-- C9 (amended): whenever `start_review` returns a `ReviewResult` with
status `"failed"`, its findings list is empty and its summary is the fixed
"no issues found" message: the failure override inside
`_create_review_summary` only applies when the findings list is non-empty,
which never coincides with a failed status in `start_review`. -/
theorem start_review_failed_gives_no_issues_summary
    (agents : List (String × TWT.ReviewAgent))
    (add : TWT.AgentFinding → Except String Int)
    (text : String) (document_info : List (String × String))
    (session_id : Int) (agents_to_use : Option (List String))
    (r : TWT.ReviewResult)
    (hr : TWT.start_review agents add text document_info session_id
            agents_to_use = Except.ok r)
    (hst : r.status = "failed") :
    r.findings = [] ∧
    r.summary = some "No issues found in the document. The content appears to be technically sound." := by
  have hsid : session_id ≠ 0 := by
    intro h0
    rw [h0] at hr
    simp [TWT.start_review] at hr
  have hr' : r =
      { session_id := session_id
        findings := (TWT.runAgents agents add ⟨text, document_info, session_id⟩
          (agents_to_use.getD (agents.map Prod.fst))).1
        agent_results := (TWT.runAgents agents add ⟨text, document_info, session_id⟩
          (agents_to_use.getD (agents.map Prod.fst))).2.1
        status :=
          if (TWT.runAgents agents add ⟨text, document_info, session_id⟩
                (agents_to_use.getD (agents.map Prod.fst))).2.2 = 0 then "failed"
          else if (TWT.runAgents agents add ⟨text, document_info, session_id⟩
                (agents_to_use.getD (agents.map Prod.fst))).2.2
              < (agents_to_use.getD (agents.map Prod.fst)).length then "partial"
          else "completed"
        summary := some (TWT.create_review_summary
          (TWT.runAgents agents add ⟨text, document_info, session_id⟩
            (agents_to_use.getD (agents.map Prod.fst))).1
          (TWT.runAgents agents add ⟨text, document_info, session_id⟩
            (agents_to_use.getD (agents.map Prod.fst))).2.1
          (if (TWT.runAgents agents add ⟨text, document_info, session_id⟩
                (agents_to_use.getD (agents.map Prod.fst))).2.2 = 0 then "failed"
          else if (TWT.runAgents agents add ⟨text, document_info, session_id⟩
                (agents_to_use.getD (agents.map Prod.fst))).2.2
              < (agents_to_use.getD (agents.map Prod.fst)).length then "partial"
          else "completed")) } := by
    unfold TWT.start_review at hr
    rw [if_neg hsid] at hr
    exact (Except.ok.inj hr).symm
  subst hr'
  by_cases hz : (TWT.runAgents agents add ⟨text, document_info, session_id⟩
      (agents_to_use.getD (agents.map Prod.fst))).2.2 = 0
  · have hnil := runAgents_findings_nil_of_successful_zero agents add
      ⟨text, document_info, session_id⟩
      (agents_to_use.getD (agents.map Prod.fst)) hz
    refine ⟨hnil, ?_⟩
    simp only [hnil, if_pos hz]
    simp [TWT.create_review_summary]
  · exfalso
    simp only [if_neg hz] at hst
    by_cases hlt : (TWT.runAgents agents add ⟨text, document_info, session_id⟩
        (agents_to_use.getD (agents.map Prod.fst))).2.2
        < (agents_to_use.getD (agents.map Prod.fst)).length
    · rw [if_pos hlt] at hst
      exact absurd hst (by decide)
    · rw [if_neg hlt] at hst
      exact absurd hst (by decide)

/-- Witness for C9 (amended) at the concrete failing review of the
counterexample. -/
theorem start_review_failed_gives_no_issues_summary_witness :
    ({ session_id := 1, findings := [], agent_results := [("technical", [])],
       status := "failed",
       summary := some "No issues found in the document. The content appears to be technically sound." } : TWT.ReviewResult).findings = [] ∧
    ({ session_id := 1, findings := [], agent_results := [("technical", [])],
       status := "failed",
       summary := some "No issues found in the document. The content appears to be technically sound." } : TWT.ReviewResult).summary
      = some "No issues found in the document. The content appears to be technically sound." :=
  start_review_failed_gives_no_issues_summary
    [("technical", TWT.oneFindingAgent)] TWT.addFail "doc" [] 1
    (some ["technical"])
    { session_id := 1, findings := [], agent_results := [("technical", [])],
      status := "failed",
      summary := some "No issues found in the document. The content appears to be technically sound." }
    (by rfl) (by rfl)

/-- C8: when the resolved primary provider is registered and its call
raises while a distinct registered fallback provider succeeds,
`generate_response` returns the fallback provider's text (first conjunct);
when the fallback call also raises, `generate_response` raises the single
aggregate all-providers-failed error (second conjunct). -/
theorem generate_response_fallback_behaviour
    (providers : List (String × TWT.LLMProvider))
    (default_name fallback_name prompt : String) (max_tokens : Option Int)
    (temperature : Rat) (provider : Option String)
    (p q : TWT.LLMProvider) (e1 : String)
    (hp : TWT.lookupProvider providers
        (TWT.resolveProviderName provider default_name) = some p)
    (hq : TWT.lookupProvider providers fallback_name = some q)
    (hne : fallback_name ≠ TWT.resolveProviderName provider default_name)
    (hfail : p prompt max_tokens temperature = Except.error e1) :
    (∀ text, q prompt max_tokens temperature = Except.ok text →
      TWT.generate_response providers default_name fallback_name prompt
        max_tokens temperature provider = Except.ok text) ∧
    (∀ e2, q prompt max_tokens temperature = Except.error e2 →
      TWT.generate_response providers default_name fallback_name prompt
        max_tokens temperature provider
        = Except.error "All LLM providers failed") := by
  constructor
  · intro text hok
    unfold TWT.generate_response
    simp only [hp, hfail]
    simp only [TWT.tryFallbackProvider, if_pos hne, hq, hok]
  · intro e2 herr
    unfold TWT.generate_response
    simp only [hp, hfail]
    simp only [TWT.tryFallbackProvider, if_pos hne, hq, herr]

/-- Witness for C8 with concrete registries: a primary that always raises
with a fallback that returns `"fallback text"`, and the same pair with the
fallback raising too. -/
theorem generate_response_fallback_behaviour_witness :
    TWT.generate_response
        [("groq", TWT.failingProvider), ("gemini", TWT.fallbackTextProvider)]
        "groq" "gemini" "Hello" none 0 none = Except.ok "fallback text" ∧
    TWT.generate_response
        [("groq", TWT.failingProvider), ("gemini", TWT.failingProvider2)]
        "groq" "gemini" "Hello" none 0 none
      = Except.error "All LLM providers failed" :=
  ⟨(generate_response_fallback_behaviour
      [("groq", TWT.failingProvider), ("gemini", TWT.fallbackTextProvider)]
      "groq" "gemini" "Hello" none 0 none
      TWT.failingProvider TWT.fallbackTextProvider "boom"
      rfl rfl (by decide) rfl).1 "fallback text" rfl,
   (generate_response_fallback_behaviour
      [("groq", TWT.failingProvider), ("gemini", TWT.failingProvider2)]
      "groq" "gemini" "Hello" none 0 none
      TWT.failingProvider TWT.failingProvider2 "boom"
      rfl rfl (by decide) rfl).2 "also down" rfl⟩

/-- C4: parsing the analyzer text
`"FINDINGS:\n[ERROR] - Page 3: Reversed polarity\nSuggestion: Swap leads\n---\n[INFO] - Page 4: minor typo"`
returns exactly two findings: severity `error` at `Page 3` with description
`Reversed polarity` and suggestion `Swap leads`, then severity `info` at
`Page 4` with description `minor typo` and no suggestion — for every
session id. -/
theorem parse_ai_response_two_block_example (session_id : Int) :
    TWT.parse_ai_response "Technical Accuracy Reviewer"
      "FINDINGS:\n[ERROR] - Page 3: Reversed polarity\nSuggestion: Swap leads\n---\n[INFO] - Page 4: minor typo"
      session_id
    = [{ session_id := session_id, agent_name := "Technical Accuracy Reviewer",
         severity := "error", category := "technical",
         description := "Reversed polarity", location := "Page 3",
         suggestion := some "Swap leads", confidence := mkRat 8 10 },
       { session_id := session_id, agent_name := "Technical Accuracy Reviewer",
         severity := "info", category := "technical",
         description := "minor typo", location := "Page 4",
         suggestion := none, confidence := mkRat 8 10 }] := by
  rfl

/-- C5 counterexample: two consecutive header lines with no `---` line and
no blank lines between them parse into ONE finding, not two — the block
splitter only cuts at runs of three or more dashes or newlines, and
`_parse_single_finding` reads the header from the first line of a block
only. -/
theorem parse_ai_response_adjacent_headers_one_finding :
    (TWT.parse_ai_response "Technical Accuracy Reviewer"
        "[ERROR] - Page 1: First issue\n[ERROR] - Page 2: Second issue"
        1).length = 1 := by
  rfl

/-- C5 (amended): a line matching the finding-header grammar does NOT
begin a new finding; blocks are delimited only by runs of three or more
dashes or three or more newlines, so two consecutive header lines with
nothing between them parse into a single finding whose severity, location
and description come from the first header line, the second header line
being ignored. -/
theorem parse_ai_response_adjacent_headers (session_id : Int) :
    TWT.parse_ai_response "Technical Accuracy Reviewer"
      "[ERROR] - Page 1: First issue\n[ERROR] - Page 2: Second issue"
      session_id
    = [{ session_id := session_id, agent_name := "Technical Accuracy Reviewer",
         severity := "error", category := "technical",
         description := "First issue", location := "Page 1",
         suggestion := none, confidence := mkRat 8 10 }] := by
  rfl

/-- C7: for each canonical sixteenth fraction `k/16` with
`1 ≤ k ≤ 15`, the composite
`_fraction_to_decimal(_decimal_to_fraction(k/16))` returns a value within
1/32 of `k/16` (in fact the round trip is exact on these inputs). -/
theorem sixteenth_fraction_roundtrip :
    ∀ k : Fin 15, TWT.sixteenthRoundTripOk (mkRat (k.val + 1) 16) = true := by
  decide

/-- `qAdd` is ordinary rational addition. -/
theorem qAdd_eq (a b : Rat) : TWT.qAdd a b = a + b := by
  have ha : (a.den : ℚ) ≠ 0 := by exact_mod_cast a.den_nz
  have hb : (b.den : ℚ) ≠ 0 := by exact_mod_cast b.den_nz
  conv_rhs => rw [← Rat.num_div_den a, ← Rat.num_div_den b]
  rw [TWT.qAdd, Rat.divInt_eq_div, div_add_div _ _ ha hb]
  push_cast
  ring

/-- `qSub` is ordinary rational subtraction. -/
theorem qSub_eq (a b : Rat) : TWT.qSub a b = a - b := by
  have ha : (a.den : ℚ) ≠ 0 := by exact_mod_cast a.den_nz
  have hb : (b.den : ℚ) ≠ 0 := by exact_mod_cast b.den_nz
  conv_rhs => rw [← Rat.num_div_den a, ← Rat.num_div_den b]
  rw [TWT.qSub, Rat.divInt_eq_div, div_sub_div _ _ ha hb]
  push_cast
  ring

/-- `qMul` is ordinary rational multiplication. -/
theorem qMul_eq (a b : Rat) : TWT.qMul a b = a * b := by
  conv_rhs => rw [← Rat.num_div_den a, ← Rat.num_div_den b]
  rw [TWT.qMul, Rat.divInt_eq_div, div_mul_div_comm]
  push_cast
  ring

/-- `qDiv` is ordinary rational division (both send division by zero
to zero). -/
theorem qDiv_eq (a b : Rat) : TWT.qDiv a b = a / b := by
  rcases eq_or_ne b 0 with rfl | hb
  · show Rat.divInt (a.num * ((0 : ℚ).den : Int)) ((a.den : Int) * (0 : ℚ).num) = a / 0
    norm_num [Rat.divInt_eq_div]
  · have ha : (a.den : ℚ) ≠ 0 := by exact_mod_cast a.den_nz
    have hbd : (b.den : ℚ) ≠ 0 := by exact_mod_cast b.den_nz
    have hbn : (b.num : ℚ) ≠ 0 := by exact_mod_cast Rat.num_ne_zero.mpr hb
    conv_rhs => rw [← Rat.num_div_den a, ← Rat.num_div_den b]
    rw [TWT.qDiv, Rat.divInt_eq_div]
    push_cast
    field_simp

/-- `pyAbs` is the absolute value. -/
theorem pyAbs_eq (x : Rat) : TWT.pyAbs x = |x| := by
  rw [TWT.pyAbs]
  split
  · rename_i h
    show -x = |x|
    rw [abs_of_neg h]
  · rename_i h
    rw [abs_of_nonneg (le_of_not_lt h)]

set_option maxRecDepth 100000 in
set_option maxHeartbeats 4000000 in
/-- C6: for every document text, the temperature rule of the conversion
validator emits an error finding for exactly those matches of the
temperature pattern whose parsed Fahrenheit value `f` and Celsius value
`c` satisfy `|c - (f - 32) * 5 / 9| > 0.5`, the finding quoting the
matched text and the corrected Celsius value rounded to one decimal
(first conjunct, stated with ordinary rational arithmetic); in
particular, the full validator on `"100°F ... 37°C"` yields exactly one
error finding for that pair and on `"32°F ... 0°C"` yields none (second
and third conjuncts). -/
theorem validate_conversions_temperature (role text : String)
    (session_id : Int) :
    (TWT.validateRule TWT.temperatureRule role text session_id
      = (TWT.reFindIter TWT.tempPattern text.toList).filterMap (fun m =>
          match TWT.parseFloat (TWT.capture 1 m.2),
              TWT.parseFloat (TWT.capture 2 m.2) with
          | some f, some c =>
              if |c - (f - 32) * 5 / 9| > 1/2 then
                some (TWT.tempConversionFinding role session_id f c
                  ((f - 32) * 5 / 9) m.1)
              else none
          | some _, none => none
          | none, _ => none))
    ∧ TWT.validate_conversions role "100°F ... 37°C" session_id
        = [{ session_id := session_id, agent_name := role,
             severity := "error", category := "conversion",
             description := "Incorrect temperature conversion: 100.0°F should be 37.8°C, not 37.0°C",
             location := "Conversion: 100°F ... 37°C",
             suggestion := some "Correct conversion: 100.0°F = 37.8°C",
             confidence := mkRat 95 100 }]
    ∧ TWT.validate_conversions role "32°F ... 0°C" session_id = [] := by
  have hhalf : mkRat 1 2 = (1 : ℚ)/2 := by
    rw [Rat.mkRat_eq_divInt, Rat.divInt_eq_div]
    norm_num
  have harith : ∀ f : Rat,
      TWT.qDiv (TWT.qMul (TWT.qSub f 32) 5) 9 = (f - 32) * 5 / 9 := by
    intro f
    rw [qSub_eq, qMul_eq, qDiv_eq]
  refine ⟨?_, ?_, ?_⟩
  · unfold TWT.validateRule
    refine List.filterMap_congr ?_
    intro m _
    cases h1 : TWT.parseFloat (TWT.capture 1 m.2) with
    | none => rfl
    | some f =>
      cases h2 : TWT.parseFloat (TWT.capture 2 m.2) with
      | none => rfl
      | some c =>
        simp only [TWT.temperatureRule]
        rw [if_pos (show True ∧ True from ⟨trivial, trivial⟩)]
        rw [harith f]
        simp only [qSub_eq, pyAbs_eq, hhalf]
  · rfl
  · rfl
